import Mathlib

/-!
Shallow embedding of the client-side UI controllers of the repository
(page bulk-selection controller, notification-email controller, sitemap
delete/archive controllers) and proofs of the specified properties.

Each JavaScript event handler is modelled as a pure Lean function from an
explicit environment (DOM state, CSRF-token lookup result, confirmation
answer, network outcome) to a result record listing the network requests
issued, the notifications shown (`showMessage`) and the final DOM state.
-/

/-- A `showMessage(message, severity)` call. -/
structure Notif where
  message : String
  severity : String
deriving Repr, DecidableEq

/-- A parsed JSON response together with the transport status:
`ok` is `response.ok` (2xx status), `success` is `data.success`,
`message` is `data.message` (absent modelled as `none`),
`emailId` is `data.email_id` for the add endpoint. -/
structure HttpResponse where
  ok : Bool
  success : Bool
  message : Option String
  emailId : Option String
deriving Repr, DecidableEq

/-- Outcome of an awaited `fetch` + `response.json()`:
either a parsed response, or a transport/parse exception. -/
inductive FetchOutcome where
  | response (r : HttpResponse)
  | exn
deriving Repr, DecidableEq

/-- `response.ok && data.success`: the uniform success test used by every
handler; a transport/parse exception is never a success. -/
def FetchOutcome.isSuccess : FetchOutcome → Bool
  | .response r => r.ok && r.success
  | .exn => false

/-- `data.message || fallback`: the server message when present, otherwise
the handler-specific fallback string. -/
def FetchOutcome.messageOr (fallback : String) : FetchOutcome → String
  | .response r => (r.message).getD fallback
  | .exn => fallback

namespace Pages
/-!
Embedding of the page-list controller (`part_000`): multi-select
checkboxes, a tri-state select-all header control, a bulk-action bar, and
the `updatePages` bulk mutation.
-/

/-- DOM state seen by the controller: the checked state of every rendered
per-item checkbox (in DOM order), the select-all header control and the
bulk-action bar with their presence flags. -/
structure DomState where
  checkboxes : List Bool
  hasSelectAll : Bool
  selectAllChecked : Bool
  selectAllIndeterminate : Bool
  hasBulkActions : Bool
  bulkActionsHidden : Bool
deriving Repr, DecidableEq

/-- `updateBulkActionsVisibility()`: recompute `anyChecked` and toggle the
`hidden` class on the bulk-action bar when it exists. -/
def updateBulkActionsVisibility (s : DomState) : DomState :=
  let anyChecked := s.checkboxes.any id
  if s.hasBulkActions then
    { s with bulkActionsHidden := !anyChecked }
  else
    s

/-- `toggleCheckbox()`: recompute `allChecked` (`Array.every`, vacuously
true on an empty list) and `anyChecked`, update the select-all control's
checked and indeterminate state when it exists, then refresh the
bulk-action bar. -/
def toggleCheckbox (s : DomState) : DomState :=
  let allChecked := s.checkboxes.all id
  let anyChecked := s.checkboxes.any id
  let s' :=
    if s.hasSelectAll then
      { s with selectAllChecked := allChecked
               selectAllIndeterminate := anyChecked && !allChecked }
    else
      s
  updateBulkActionsVisibility s'

/-- `toggleSelectAll(event)`: set every per-item checkbox to the header's
new checked value, then refresh the bulk-action bar. -/
def toggleSelectAll (checked : Bool) (s : DomState) : DomState :=
  updateBulkActionsVisibility { s with checkboxes := s.checkboxes.map (fun _ => checked) }

/-- The body of the POST to `/api/pages/bulk-update`. -/
structure BulkRequest where
  pageIds : List Int
  needsReview : Bool
deriving Repr, DecidableEq

/-- Result of running `updatePages`: requests issued, notifications shown,
whether `location.reload()` was called. -/
structure UpdateResult where
  requests : List BulkRequest
  notifications : List Notif
  reloaded : Bool
deriving Repr, DecidableEq

/-- A rendered per-item checkbox: its checked state and its
`data-page-id`. -/
structure PageCheckbox where
  checked : Bool
  pageId : Int
deriving Repr, DecidableEq

/-- `updatePages(needsReview)`: filter the checked checkboxes, collect
their page ids; with an empty selection show an error and stop before any
network activity; otherwise read the CSRF token (throwing into the catch
block when the element is absent), POST the ids, and on success show the
server message and reload, on failure or exception show an error. -/
def updatePages (boxes : List PageCheckbox) (needsReview : Bool)
    (csrfToken : Option String) (net : FetchOutcome) : UpdateResult :=
  let pageIds := (boxes.filter (·.checked)).map (·.pageId)
  if pageIds.length = 0 then
    { requests := [], notifications := [⟨"Please select at least one page", "error"⟩],
      reloaded := false }
  else
    match csrfToken with
    | none =>
        -- `getCsrfToken()` dereferences a missing element: TypeError inside
        -- the try block, before `fetch` is reached; caught by the catch.
        { requests := [],
          notifications := [⟨"An error occurred while updating pages", "error"⟩],
          reloaded := false }
    | some _ =>
        let req : BulkRequest := ⟨pageIds, needsReview⟩
        match net with
        | .exn =>
            { requests := [req],
              notifications := [⟨"An error occurred while updating pages", "error"⟩],
              reloaded := false }
        | .response r =>
            if r.ok && r.success then
              { requests := [req],
                notifications := [⟨r.message.getD "", "success"⟩],
                reloaded := true }
            else
              { requests := [req],
                notifications := [⟨r.message.getD "Failed to update pages", "error"⟩],
                reloaded := false }

end Pages

namespace Emails
/-!
Embedding of the notification-email controller (`part_001`):
`addEmail` with local validation, `toggleEmail` with optimistic update
and an intended-but-broken rollback (see its doc comment), `deleteEmail`
behind a confirmation prompt, and the `isValidEmail` pattern check.
-/

/-- JavaScript's `\s` character class: space, `\t`, `\n`, `\v`, `\f`,
`\r`, and the Unicode space separators, line separators and BOM. -/
def jsSpace (c : Char) : Bool :=
  c == ' ' || c == '\t' || c == '\n' || c == '\x0b' || c == '\x0c' ||
  c == '\r' || c == '\u00A0' || c == '\u1680' ||
  ('\u2000' ≤ c && c ≤ '\u200A') || c == '\u2028' || c == '\u2029' ||
  c == '\u202F' || c == '\u205F' || c == '\u3000' || c == '\uFEFF'

/-- The character class `[^\s@]` of the validation regex: any character
that is neither JavaScript whitespace (`\s`) nor `@`. -/
def okChar (c : Char) : Bool :=
  !jsSpace c && c != '@'

/-- The regex `^[^\s@]+@[^\s@]+\.[^\s@]+$` on a character list: split at
the first `@` (the local part can contain no `@`, so the regex's `@` is
the first one); the local part must be a non-empty `okChar` run; the
remainder `d` must consist of `okChar` characters and contain a `.` that
is neither its first nor its last character, so that `d` factors as
`[^\s@]+ "." [^\s@]+` (the runs may themselves contain further dots,
which the regex accepts by backtracking). -/
def emailChars (cs : List Char) : Bool :=
  match cs.dropWhile (· ≠ '@') with
  | '@' :: d =>
      !(cs.takeWhile (· ≠ '@')).isEmpty && (cs.takeWhile (· ≠ '@')).all okChar &&
        d.all okChar && ((d.drop 1).dropLast.contains '.')
  | _ => false

/-- `isValidEmail(email)`: `/^[^\s@]+@[^\s@]+\.[^\s@]+$/.test(email)`. -/
def isValidEmail (email : String) : Bool :=
  emailChars email.toList

/-- The declarative reading of the pattern, written from the spec's words:
some split `localpart ++ "@" ++ run1 ++ "." ++ run2` with every segment
non-empty and free of whitespace and `@`. Used to check `isValidEmail`
against the spec's description of the pattern. -/
def matchesSpecPattern (email : String) : Prop :=
  ∃ l m t : List Char,
    email.toList = l ++ '@' :: (m ++ '.' :: t) ∧
    l ≠ [] ∧ m ≠ [] ∧ t ≠ [] ∧
    l.all okChar ∧ m.all okChar ∧ t.all okChar

/-- `String.trim` as JavaScript's `String.prototype.trim`: strip leading
and trailing `\s` characters (the complement of `okChar` up to `@`, i.e.
the same whitespace class as the regex). -/
def jsTrim (s : String) : String :=
  ⟨((s.toList.dropWhile jsSpace).reverse.dropWhile jsSpace).reverse⟩

/-- A list entry produced by `addEmailToList(emailId, emailAddress,
enabled)`: the rendered item shows the id in its `data-email-id`
attributes, the address, and the enabled state. (`data.email_id` being
absent renders as the string id `none` here.) -/
structure EmailEntry where
  emailId : Option String
  address : String
  enabled : Bool
deriving Repr, DecidableEq

/-- Result of running `addEmail`: POST bodies issued, notifications,
final input value, entries appended to the list, and the add button's
disabled flag while a request was in flight and after settling. -/
structure AddResult where
  requests : List String
  notifications : List Notif
  inputValue : String
  appended : List EmailEntry
  buttonDisabledDuringRequest : Bool
  buttonDisabledAfter : Bool
  buttonTextAfter : String
deriving Repr, DecidableEq

/-- `addEmail(event)`: trim the input; reject an empty or pattern-failing
value locally with an error notification and no network activity;
otherwise disable the button, read the CSRF token (a missing element
throws into the catch block before `fetch`), POST the address, on success
clear the input and append one entry with the server-assigned id, on
failure or exception leave the input populated; the `finally` block
re-enables the button on every path. -/
def addEmail (input : String) (csrfToken : Option String)
    (net : FetchOutcome) : AddResult :=
  let emailAddress := jsTrim input
  if emailAddress = "" then
    { requests := [], notifications := [⟨"Please enter an email address", "error"⟩],
      inputValue := input, appended := [],
      buttonDisabledDuringRequest := false, buttonDisabledAfter := false,
      buttonTextAfter := "Add Email" }
  else if !isValidEmail emailAddress then
    { requests := [], notifications := [⟨"Please enter a valid email address", "error"⟩],
      inputValue := input, appended := [],
      buttonDisabledDuringRequest := false, buttonDisabledAfter := false,
      buttonTextAfter := "Add Email" }
  else
    match csrfToken with
    | none =>
        { requests := [],
          notifications := [⟨"An error occurred. Please try again.", "error"⟩],
          inputValue := input, appended := [],
          buttonDisabledDuringRequest := true, buttonDisabledAfter := false,
          buttonTextAfter := "Add Email" }
    | some _ =>
        match net with
        | .exn =>
            { requests := [emailAddress],
              notifications := [⟨"An error occurred. Please try again.", "error"⟩],
              inputValue := input, appended := [],
              buttonDisabledDuringRequest := true, buttonDisabledAfter := false,
              buttonTextAfter := "Add Email" }
        | .response r =>
            if r.ok && r.success then
              { requests := [emailAddress],
                notifications := [⟨r.message.getD "", "success"⟩],
                inputValue := "",
                appended := [⟨r.emailId, emailAddress, true⟩],
                buttonDisabledDuringRequest := true, buttonDisabledAfter := false,
                buttonTextAfter := "Add Email" }
            else
              { requests := [emailAddress],
                notifications := [⟨r.message.getD "Failed to add email", "error"⟩],
                inputValue := input, appended := [],
                buttonDisabledDuringRequest := true, buttonDisabledAfter := false,
                buttonTextAfter := "Add Email" }

/-- Result of running `toggleEmail`: PATCH bodies issued (the posted
`enabled` value), notifications, the control's final checked state, and
whether the handler terminated with an uncaught exception (a rejected
promise escaping the handler). -/
structure ToggleResult where
  requests : List Bool
  notifications : List Notif
  checkedAfter : Bool
  uncaughtError : Bool
deriving Repr, DecidableEq

/-- `toggleEmail(event)`: the browser has already applied the click, so
`event.currentTarget.checked` is the optimistic new value `enabled` and
the pre-click value is `!enabled`. PATCH the new value; on success keep
it.

The rollback writes `event.currentTarget.checked = !enabled` (failure
branch and catch block) run after the two `await`s, by which time the
DOM dispatch algorithm has completed and reset `event.currentTarget` to
null, so each of those writes throws a TypeError instead of rolling
back:
- server-reported failure: the failure toast is shown, then the
  rollback write throws into the catch block, which shows the generic
  toast and then throws again, uncaught, from its own rollback write —
  the control keeps the optimistic value;
- transport/parse exception: the catch shows the generic toast, then
  its rollback write throws uncaught — the control keeps the optimistic
  value;
- missing CSRF element: `getCSRFToken()` throws synchronously, before
  the first `await`, so the catch still runs during dispatch while
  `event.currentTarget` is live — this is the one failure path where
  the rollback write succeeds. -/
def toggleEmail (enabled : Bool) (csrfToken : Option String)
    (net : FetchOutcome) : ToggleResult :=
  match csrfToken with
  | none =>
      { requests := [],
        notifications := [⟨"An error occurred. Please try again.", "error"⟩],
        checkedAfter := !enabled,
        uncaughtError := false }
  | some _ =>
      match net with
      | .exn =>
          { requests := [enabled],
            notifications := [⟨"An error occurred. Please try again.", "error"⟩],
            checkedAfter := enabled,
            uncaughtError := true }
      | .response r =>
          if r.ok && r.success then
            { requests := [enabled],
              notifications := [⟨r.message.getD "", "success"⟩],
              checkedAfter := enabled,
              uncaughtError := false }
          else
            { requests := [enabled],
              notifications := [⟨r.message.getD "Failed to update email", "error"⟩,
                                ⟨"An error occurred. Please try again.", "error"⟩],
              checkedAfter := enabled,
              uncaughtError := true }

/-- Result of running `deleteEmail` (and the sitemap delete handlers):
DELETE request ids issued, notifications, the rendered item list after
the handler settles, and whether `location.reload()` was called. -/
structure DeleteResult where
  requests : List Nat
  notifications : List Notif
  finalItems : List Nat
  reloaded : Bool
deriving Repr, DecidableEq

/-- `deleteEmail(event)`: `event.currentTarget.closest("[data-email-item]")`
is captured as `itemLookup` before the prompt. A declined confirmation
abandons the action with no side effects. Otherwise DELETE the id; on
success show the success message and call `emailItem.remove()` — when the
lookup returned nothing this dereference throws, and the catch block adds
a generic error notification (the success message has already been
shown). No path calls `location.reload()`. -/
def deleteEmail (emailId : Nat) (itemLookup : Option Nat) (confirmed : Bool)
    (csrfToken : Option String) (net : FetchOutcome)
    (items : List Nat) : DeleteResult :=
  if !confirmed then
    { requests := [], notifications := [], finalItems := items, reloaded := false }
  else
    match csrfToken with
    | none =>
        { requests := [],
          notifications := [⟨"An error occurred. Please try again.", "error"⟩],
          finalItems := items, reloaded := false }
    | some _ =>
        match net with
        | .exn =>
            { requests := [emailId],
              notifications := [⟨"An error occurred. Please try again.", "error"⟩],
              finalItems := items, reloaded := false }
        | .response r =>
            if r.ok && r.success then
              match itemLookup with
              | some item =>
                  { requests := [emailId],
                    notifications := [⟨r.message.getD "", "success"⟩],
                    finalItems := items.erase item, reloaded := false }
              | none =>
                  -- `null.remove()` throws after the success message; the
                  -- catch block appends the generic error message.
                  { requests := [emailId],
                    notifications := [⟨r.message.getD "", "success"⟩,
                                      ⟨"An error occurred. Please try again.", "error"⟩],
                    finalItems := items, reloaded := false }
            else
              { requests := [emailId],
                notifications := [⟨r.message.getD "Failed to delete email", "error"⟩],
                finalItems := items, reloaded := false }

end Emails

namespace Sitemaps
/-!
Embedding of the two sitemap controllers
(`src/frontend/src/controllers/sitemap_controller.js`): the `delete`
handler (and its archive variant, identical up to message strings) and
the localStorage-backed skip-onboarding flag.
-/

/-- `delete(event)` of the sitemap controllers, parameterized by the
failure/exception message strings (`"Failed to delete sitemap"` /
`"An error occurred while deleting the sitemap"` for the delete variant,
the archive variant differs only in these strings).

A declined confirmation abandons the action with no side effects. On a
confirmed action the CSRF token is read inside the try block (a missing
element throws before `fetch`); the id is DELETEd; on success the
originating item element is looked up with
`button.closest('[data-sitemap-target="item"]')` — a `none` lookup is
tolerated by an explicit `if (itemElement)` guard — the item is removed
when found, `location.reload()` is called when no rendered items remain
afterwards, and the success message is shown; on failure or exception an
error message is shown and the DOM is untouched. -/
def deleteSitemap (failMsg errMsg : String) (sitemapId : Nat)
    (itemLookup : Option Nat) (confirmed : Bool) (csrfToken : Option String)
    (net : FetchOutcome) (items : List Nat) : Emails.DeleteResult :=
  if !confirmed then
    { requests := [], notifications := [], finalItems := items, reloaded := false }
  else
    match csrfToken with
    | none =>
        { requests := [], notifications := [⟨errMsg, "error"⟩],
          finalItems := items, reloaded := false }
    | some _ =>
        match net with
        | .exn =>
            { requests := [sitemapId], notifications := [⟨errMsg, "error"⟩],
              finalItems := items, reloaded := false }
        | .response r =>
            if r.ok && r.success then
              let remaining :=
                match itemLookup with
                | some item => items.erase item
                | none => items
              { requests := [sitemapId],
                notifications := [⟨r.message.getD "", "success"⟩],
                finalItems := remaining,
                reloaded := remaining.length = 0 }
            else
              { requests := [sitemapId],
                notifications := [⟨(r.message).getD failMsg, "error"⟩],
                finalItems := items, reloaded := false }

/-- The browser's localStorage as seen through `getItem`/`setItem`:
either a key-value store, or a storage that throws on every access
(e.g. private browsing). -/
inductive Storage where
  | unavailable
  | store (entries : String → Option String)

/-- `localStorage.getItem(key)`: the stored value, or a thrown error. -/
def Storage.getItem : Storage → String → Except Unit (Option String)
  | .unavailable, _ => .error ()
  | .store entries, key => .ok (entries key)

/-- `localStorage.setItem(key, value)`: the updated storage, or a thrown
error. -/
def Storage.setItem : Storage → String → String → Except Unit Storage
  | .unavailable, _, _ => .error ()
  | .store entries, key, value =>
      .ok (.store fun k => if k = key then some value else entries k)

/-- `shouldSkipOnboarding()`: `localStorage.getItem("skipOnboarding") ===
"true"`, with any storage error caught and turned into `false`. -/
def shouldSkipOnboarding (st : Storage) : Bool :=
  match st.getItem "skipOnboarding" with
  | .error _ => false
  | .ok v => v == some "true"

/-- `setSkipOnboarding()`: `localStorage.setItem("skipOnboarding",
"true")`, with any storage error caught and ignored (storage left as it
was); the handler itself never propagates the error. -/
def setSkipOnboarding (st : Storage) : Storage :=
  match st.setItem "skipOnboarding" "true" with
  | .error _ => st
  | .ok st' => st'

/-- `connect()`: onboarding is hidden exactly when the skip flag reads as
set; the returned Bool is whether the onboarding modal ends up hidden
(given it starts visible). -/
def connectHidesOnboarding (st : Storage) : Bool :=
  shouldSkipOnboarding st

end Sitemaps


namespace Emails

theorem okChar_dot : okChar '.' = true := by decide

theorem okChar_ne_at {c : Char} (h : okChar c = true) : c ≠ '@' := by
  unfold okChar at h
  intro hc
  subst hc
  simp at h

theorem takeWhile_split_at (l rest : List Char) (hl : ∀ c ∈ l, c ≠ '@') :
    (l ++ '@' :: rest).takeWhile (· ≠ '@') = l ∧
    (l ++ '@' :: rest).dropWhile (· ≠ '@') = '@' :: rest := by
  induction l with
  | nil => simp [List.takeWhile_cons, List.dropWhile_cons]
  | cons a l ih =>
    have ha : (fun x => decide (x ≠ '@')) a = true := by
      simpa using hl a (by simp)
    have ih' := ih fun c hc => hl c (by simp [hc])
    rw [List.cons_append, List.takeWhile_cons, List.dropWhile_cons, if_pos ha, if_pos ha]
    exact ⟨by rw [ih'.1], ih'.2⟩

theorem domain_chars_iff (d : List Char) :
    (d.all okChar = true ∧ (d.drop 1).dropLast.contains '.' = true) ↔
      ∃ m t, d = m ++ '.' :: t ∧ m ≠ [] ∧ t ≠ [] ∧
        m.all okChar = true ∧ t.all okChar = true := by
  constructor
  · rintro ⟨hall, hdot⟩
    cases d with
    | nil => simp at hdot
    | cons a d1 =>
      simp only [List.drop_succ_cons, List.drop_zero] at hdot
      have hmem : '.' ∈ d1.dropLast := by
        simpa [List.contains_iff_exists_mem_beq, beq_iff_eq] using hdot
      obtain ⟨s, u, hsu⟩ := List.mem_iff_append.mp hmem
      have hd1ne : d1 ≠ [] := by
        rintro rfl; simp at hmem
      obtain ⟨z, hz⟩ : ∃ z, s ++ '.' :: u ++ [z] = d1 :=
        ⟨d1.getLast hd1ne, by rw [← hsu]; exact List.dropLast_concat_getLast hd1ne⟩
      have hallmem : ∀ x ∈ a :: d1, okChar x = true := List.all_eq_true.mp hall
      refine ⟨a :: s, u ++ [z], ?_, by simp, by simp, ?_, ?_⟩
      · rw [← hz]; simp
      · refine List.all_eq_true.mpr fun x hx => hallmem x ?_
        rcases List.mem_cons.mp hx with h | h
        · simp [h]
        · refine List.mem_cons_of_mem _ ?_
          rw [← hz]; simp [h]
      · refine List.all_eq_true.mpr fun x hx => hallmem x ?_
        refine List.mem_cons_of_mem _ ?_
        rw [← hz]
        rcases List.mem_append.mp hx with h | h
        · simp [h]
        · simp at h
          simp [h]
  · rintro ⟨m, t, rfl, hm, ht, hma, hta⟩
    constructor
    · simp_all [okChar_dot]
    · cases m with
      | nil => exact absurd rfl hm
      | cons a m1 =>
        cases t with
        | nil => exact absurd rfl ht
        | cons b t1 =>
          simp only [List.cons_append, List.drop_succ_cons, List.drop_zero,
            List.dropLast_append_cons, List.dropLast_cons₂]
          simp [List.contains_iff_exists_mem_beq]

theorem emailChars_iff (cs : List Char) :
    emailChars cs = true ↔
      ∃ l m t, cs = l ++ '@' :: (m ++ '.' :: t) ∧ l ≠ [] ∧ m ≠ [] ∧ t ≠ [] ∧
        l.all okChar = true ∧ m.all okChar = true ∧ t.all okChar = true := by
  constructor
  · intro h
    unfold emailChars at h
    split at h
    case h_2 => exact absurd h (by simp)
    case h_1 d heq =>
      simp only [Bool.and_eq_true, Bool.not_eq_true', List.isEmpty_eq_false] at h
      obtain ⟨⟨⟨hne, hlok⟩, hdall⟩, hdot⟩ := h
      obtain ⟨m, t, hd, hm, ht, hmok, htok⟩ := (domain_chars_iff d).mp ⟨hdall, hdot⟩
      refine ⟨cs.takeWhile (· ≠ '@'), m, t, ?_, hne, hm, ht, hlok, hmok, htok⟩
      rw [← hd, ← heq]
      exact (List.takeWhile_append_dropWhile (fun x => decide (x ≠ '@')) cs).symm
  · rintro ⟨l, m, t, rfl, hl, hm, ht, hlok, hmok, htok⟩
    have hnoAt : ∀ c ∈ l, c ≠ '@' := fun c hc =>
      okChar_ne_at (List.all_eq_true.mp hlok c hc)
    have hsplit := takeWhile_split_at l (m ++ '.' :: t) hnoAt
    unfold emailChars
    rw [hsplit.2, hsplit.1]
    simp only [Bool.and_eq_true, Bool.not_eq_true', List.isEmpty_eq_false]
    have hdom := (domain_chars_iff (m ++ '.' :: t)).mpr ⟨m, t, rfl, hm, ht, hmok, htok⟩
    exact ⟨⟨⟨hl, hlok⟩, hdom.1⟩, hdom.2⟩

theorem isValidEmail_iff_pattern (email : String) :
    isValidEmail email = true ↔ matchesSpecPattern email := by
  unfold isValidEmail matchesSpecPattern
  rw [emailChars_iff]

end Emails

/-- Claim C1 counterexample (empty rendered list): after `toggleCheckbox`
on an empty checkbox list, the aggregate header control is checked
(`Array.every` is vacuously true), contradicting the claim that it is
checked iff every item is selected AND the list is non-empty. -/
theorem C1_counterexample :
    ¬ (((Pages.toggleCheckbox ⟨[], true, false, false, true, false⟩).selectAllChecked = true) ↔
        ((∀ b ∈ ([] : List Bool), b = true) ∧ ([] : List Bool) ≠ [])) := by
  decide

/-- Claim C1 (amended): after each per-item selection change
(`toggleCheckbox`), the aggregate header control is checked iff every
item is selected (vacuously checked when the list is empty),
indeterminate iff at least one but not all items are selected, and the
bulk-action bar is visible iff at least one item is selected; after a
select-all toggle (`toggleSelectAll`), the bar is visible iff the header
was checked and the list is non-empty. -/
theorem C1_aggregate_ui_state (s : Pages.DomState) (c : Bool)
    (hSel : s.hasSelectAll = true) (hBar : s.hasBulkActions = true) :
    ((Pages.toggleCheckbox s).selectAllChecked = true ↔ ∀ b ∈ s.checkboxes, b = true) ∧
    ((Pages.toggleCheckbox s).selectAllIndeterminate = true ↔
      ((∃ b ∈ s.checkboxes, b = true) ∧ ¬ (∀ b ∈ s.checkboxes, b = true))) ∧
    ((Pages.toggleCheckbox s).bulkActionsHidden = false ↔ ∃ b ∈ s.checkboxes, b = true) ∧
    ((Pages.toggleSelectAll c s).bulkActionsHidden = false ↔
      (c = true ∧ s.checkboxes ≠ [])) := by
  obtain ⟨cbs, hsel, sc, si, hbar, bh⟩ := s
  simp only at hSel hBar
  subst hSel hBar
  unfold Pages.toggleCheckbox Pages.toggleSelectAll Pages.updateBulkActionsVisibility
  simp only [if_true]
  refine ⟨?_, ?_, ?_, ?_⟩
  · simp [List.all_eq_true]
  · simp [List.any_eq_true, List.all_eq_true]
  · simp [List.any_eq_true]
  · cases cbs <;> simp [List.any_eq_true] <;> cases c <;> simp

/-- Claim C2: a bulk action with an empty selection issues no network
request and surfaces the "Please select at least one page" error with
severity "error"; with a non-empty selection it issues exactly one
mutation request carrying the ids of the selected checkboxes. -/
theorem C2_bulk_selection_precondition (boxes : List Pages.PageCheckbox)
    (needsReview : Bool) (tok : String) (net : FetchOutcome) :
    ((boxes.filter (·.checked) = []) →
        (Pages.updatePages boxes needsReview (some tok) net).requests = [] ∧
        (Pages.updatePages boxes needsReview (some tok) net).notifications =
          [⟨"Please select at least one page", "error"⟩]) ∧
    ((boxes.filter (·.checked) ≠ []) →
        (Pages.updatePages boxes needsReview (some tok) net).requests =
          [⟨(boxes.filter (·.checked)).map (·.pageId), needsReview⟩]) := by
  constructor
  · intro h
    unfold Pages.updatePages
    simp [h]
  · intro h
    unfold Pages.updatePages
    have hlen : ¬ ((boxes.filter (·.checked)).map (·.pageId)).length = 0 := by
      simpa [List.length_eq_zero] using h
    rw [if_neg hlen]
    cases net with
    | exn => rfl
    | response r =>
      by_cases hr : (r.ok && r.success) = true <;> simp [hr]

/-- Claim C2 witness. -/
theorem C2_witness :
    ((Pages.updatePages [] true (some "tok") .exn).requests = [] ∧
      (Pages.updatePages [] true (some "tok") .exn).notifications =
        [⟨"Please select at least one page", "error"⟩]) ∧
    (Pages.updatePages [⟨true, 3⟩] true (some "tok") .exn).requests = [⟨[3], true⟩] :=
  ⟨(C2_bulk_selection_precondition [] true "tok" .exn).1 rfl,
   (C2_bulk_selection_precondition [⟨true, 3⟩] true "tok" .exn).2 (by decide)⟩

/-- Claim C3 (code bug): the claimed rollback — on failure the control's
checked state reverts to its pre-click value — does not hold. At a
concrete failing input (a click setting `enabled = true`, i.e. pre-click
value `false`, answered by a 2xx response with `success: false`), the
rollback write `event.currentTarget.checked = !enabled` runs after the
`await`s when `event.currentTarget` is null, throws, and the control
keeps the optimistic value `true`; the handler moreover ends in an
uncaught TypeError. The transport-exception path fails the same way. -/
theorem C3_rollback_broken :
    ((Emails.toggleEmail true (some "tok")
        (.response ⟨true, false, some "nope", none⟩)).checkedAfter = true ∧
      (Emails.toggleEmail true (some "tok")
        (.response ⟨true, false, some "nope", none⟩)).uncaughtError = true) ∧
    ((Emails.toggleEmail true (some "tok") .exn).checkedAfter = true ∧
      (Emails.toggleEmail true (some "tok") .exn).uncaughtError = true) := by
  decide

theorem isValidEmail_empty : Emails.isValidEmail "" = false := by decide

/-- Claim C4: an add input that is empty after trimming or whose trimmed
value fails the `localpart@domain.tld` pattern is rejected locally with
an "error" notification and no network call; a trimmed input matching
the pattern passes local validation and reaches the network; and the
code's pattern test agrees exactly with the spec's description of the
pattern (non-empty whitespace-free and `@`-free segments around the `@`
and a domain dot). -/
theorem C4_add_validation (input : String) (tok : Option String) (net : FetchOutcome) :
    ((Emails.jsTrim input = "" ∨ Emails.isValidEmail (Emails.jsTrim input) = false) →
        (Emails.addEmail input tok net).requests = [] ∧
        ∃ msg, (Emails.addEmail input tok net).notifications = [⟨msg, "error"⟩]) ∧
    (Emails.isValidEmail (Emails.jsTrim input) = true →
        ∀ t : String, (Emails.addEmail input (some t) net).requests = [Emails.jsTrim input]) ∧
    (Emails.isValidEmail (Emails.jsTrim input) = true ↔
        Emails.matchesSpecPattern (Emails.jsTrim input)) := by
  refine ⟨?_, ?_, Emails.isValidEmail_iff_pattern _⟩
  · intro h
    by_cases he : Emails.jsTrim input = ""
    · unfold Emails.addEmail
      rw [if_pos he]
      exact ⟨rfl, "Please enter an email address", rfl⟩
    · have hv : Emails.isValidEmail (Emails.jsTrim input) = false := by
        rcases h with h | h
        · exact absurd h he
        · exact h
      have hcond : (!Emails.isValidEmail (Emails.jsTrim input)) = true := by
        simp [hv]
      unfold Emails.addEmail
      rw [if_neg he, if_pos hcond]
      exact ⟨rfl, "Please enter a valid email address", rfl⟩
  · intro hv t
    have hne : Emails.jsTrim input ≠ "" := by
      intro he
      rw [he, isValidEmail_empty] at hv
      exact Bool.false_ne_true hv
    have hcond : ¬ ((!Emails.isValidEmail (Emails.jsTrim input)) = true) := by
      simp [hv]
    unfold Emails.addEmail
    rw [if_neg hne, if_neg hcond]
    cases net with
    | exn => rfl
    | response r =>
      by_cases hr : (r.ok && r.success) = true <;> simp [hr]

/-- Claim C4 witness. -/
theorem C4_witness :
    ((Emails.addEmail "not-an-email" (some "tok") .exn).requests = [] ∧
      ∃ msg, (Emails.addEmail "not-an-email" (some "tok") .exn).notifications =
        [⟨msg, "error"⟩]) ∧
    (Emails.addEmail "user@example.com" (some "tok") .exn).requests =
      [Emails.jsTrim "user@example.com"] :=
  ⟨(C4_add_validation "not-an-email" (some "tok") .exn).1 (Or.inr (by decide)),
   (C4_add_validation "user@example.com" (some "tok") .exn).2.1 (by decide) "tok"⟩

/-- Claim C5: declining the confirmation prompt for a single-item
delete/archive action results in zero network calls, no DOM change, and
no notification, for both the email delete handler and the sitemap
delete/archive handler. -/
theorem C5_declined_confirmation (emailId sid : Nat) (lookup : Option Nat)
    (tok : Option String) (net : FetchOutcome) (items : List Nat)
    (failMsg errMsg : String) :
    Emails.deleteEmail emailId lookup false tok net items =
      { requests := [], notifications := [], finalItems := items, reloaded := false } ∧
    Sitemaps.deleteSitemap failMsg errMsg sid lookup false tok net items =
      { requests := [], notifications := [], finalItems := items, reloaded := false } :=
  ⟨rfl, rfl⟩

/-- Claim C6 counterexample: a successful email delete of the last
remaining rendered item removes the node but does NOT trigger a full
view reload (`deleteEmail` has no reload logic), refuting the claim for
the email delete action. -/
theorem C6_counterexample :
    ¬ ((Emails.deleteEmail 7 (some 7) true (some "tok")
          (.response ⟨true, true, some "Removed", none⟩) [7]).finalItems = [] →
        (Emails.deleteEmail 7 (some 7) true (some "tok")
          (.response ⟨true, true, some "Removed", none⟩) [7]).reloaded = true) := by
  decide

/-- Claim C6 (amended): on every successful single-item delete/archive
the deleted item's node is removed and items with other ids are left
untouched; for the sitemap delete/archive handlers a full view reload is
triggered iff no rendered items remain afterwards (i.e. iff the deleted
item was the last one); the email delete handler never triggers a
reload. -/
theorem C6_delete_success_dom (failMsg errMsg tok : String) (r : HttpResponse)
    (hok : r.ok = true) (hs : r.success = true)
    (sid eid item : Nat) (items : List Nat) :
    ((Sitemaps.deleteSitemap failMsg errMsg sid (some item) true (some tok)
        (.response r) items).finalItems = items.erase item) ∧
    ((Sitemaps.deleteSitemap failMsg errMsg sid (some item) true (some tok)
        (.response r) items).reloaded = true ↔ items.erase item = []) ∧
    (∀ x, x ≠ item → ((x ∈ items.erase item) ↔ x ∈ items)) ∧
    ((Emails.deleteEmail eid (some item) true (some tok)
        (.response r) items).finalItems = items.erase item) ∧
    ((Emails.deleteEmail eid (some item) true (some tok)
        (.response r) items).reloaded = false) := by
  have hcond : (r.ok && r.success) = true := by rw [hok, hs]; rfl
  refine ⟨?_, ?_, fun x hx => List.mem_erase_of_ne hx, ?_, ?_⟩
  · simp [Sitemaps.deleteSitemap, hcond]
  · simp [Sitemaps.deleteSitemap, hcond, List.length_eq_zero]
  · simp [Emails.deleteEmail, hcond]
  · simp [Emails.deleteEmail, hcond]

/-- Claim C6 witness. -/
theorem C6_witness :
    ((Sitemaps.deleteSitemap "f" "e" 1 (some 7) true (some "t")
        (.response ⟨true, true, some "ok", none⟩) [7, 8]).finalItems = [8]) ∧
    ((Sitemaps.deleteSitemap "f" "e" 1 (some 7) true (some "t")
        (.response ⟨true, true, some "ok", none⟩) [7, 8]).reloaded = false) ∧
    ((Emails.deleteEmail 2 (some 7) true (some "t")
        (.response ⟨true, true, some "ok", none⟩) [7, 8]).reloaded = false) := by
  have h := C6_delete_success_dom "f" "e" "t" ⟨true, true, some "ok", none⟩ rfl rfl 1 2 7 [7, 8]
  refine ⟨h.1.trans (by decide), ?_, h.2.2.2.2⟩
  by_contra hr
  simp only [Bool.not_eq_false] at hr
  exact absurd (h.2.1.mp hr) (by decide)

/-- Claim C7: an add action whose trimmed input passes validation issues
exactly one POST carrying the trimmed address; on a success response
containing an id, exactly one list entry showing the server-assigned id
is appended and the input is cleared; on every failure path the input is
left populated and nothing is appended; the add button is disabled while
the request is in flight and re-enabled after settling on every path
(the `finally` block). -/
theorem C7_add_request_flow (input tok : String) (net : FetchOutcome)
    (hval : Emails.isValidEmail (Emails.jsTrim input) = true) :
    ((Emails.addEmail input (some tok) net).requests = [Emails.jsTrim input]) ∧
    ((Emails.addEmail input (some tok) net).buttonDisabledDuringRequest = true) ∧
    ((Emails.addEmail input (some tok) net).buttonDisabledAfter = false) ∧
    (∀ resp : HttpResponse, ∀ idStr : String, net = .response resp → resp.ok = true →
        resp.success = true → resp.emailId = some idStr →
        (Emails.addEmail input (some tok) net).appended =
            [⟨some idStr, Emails.jsTrim input, true⟩] ∧
        (Emails.addEmail input (some tok) net).inputValue = "") ∧
    (net.isSuccess = false →
        (Emails.addEmail input (some tok) net).appended = [] ∧
        (Emails.addEmail input (some tok) net).inputValue = input) := by
  have hne : Emails.jsTrim input ≠ "" := by
    intro he
    rw [he, isValidEmail_empty] at hval
    exact Bool.false_ne_true hval
  have hcond : ¬ ((!Emails.isValidEmail (Emails.jsTrim input)) = true) := by
    simp [hval]
  unfold Emails.addEmail
  rw [if_neg hne, if_neg hcond]
  refine ⟨?_, ?_, ?_, ?_, ?_⟩
  · cases net with
    | exn => rfl
    | response r => by_cases hr : (r.ok && r.success) = true <;> simp [hr]
  · cases net with
    | exn => rfl
    | response r => by_cases hr : (r.ok && r.success) = true <;> simp [hr]
  · cases net with
    | exn => rfl
    | response r => by_cases hr : (r.ok && r.success) = true <;> simp [hr]
  · rintro resp idStr rfl hok hs hid
    have hr : (resp.ok && resp.success) = true := by rw [hok, hs]; rfl
    simp [hr, hid]
  · intro hfail
    cases net with
    | exn => exact ⟨rfl, rfl⟩
    | response r =>
      have hr : ¬ ((r.ok && r.success) = true) := by
        simpa [FetchOutcome.isSuccess] using hfail
      simp [hr]

/-- Claim C7 witness. -/
theorem C7_witness :
    ((Emails.addEmail "user@example.com" (some "t")
        (.response ⟨true, true, some "Added", some "42"⟩)).requests =
      [Emails.jsTrim "user@example.com"]) ∧
    ((Emails.addEmail "user@example.com" (some "t")
        (.response ⟨true, true, some "Added", some "42"⟩)).appended =
      [⟨some "42", Emails.jsTrim "user@example.com", true⟩]) ∧
    ((Emails.addEmail "user@example.com" (some "t")
        (.response ⟨true, true, some "Added", some "42"⟩)).inputValue = "") := by
  have h := C7_add_request_flow "user@example.com" "t"
    (.response ⟨true, true, some "Added", some "42"⟩) (by decide)
  have h4 := h.2.2.2.1 ⟨true, true, some "Added", some "42"⟩ "42" rfl rfl rfl rfl
  exact ⟨h.1, h4.1, h4.2⟩

/-- Claim C8: a response that resolves when the originating item can no
longer be found in the DOM (`itemLookup = none`) is handled without an
uncaught crash by both delete handlers: the sitemap handler's explicit
`if (itemElement)` guard leaves the DOM untouched and still shows the
success message; the email handler's unguarded `emailItem.remove()`
throws into its catch block, which settles the handler with the generic
error notification after the success message — in both cases the handler
completes and the item list is unchanged. -/
theorem C8_missing_item_no_crash (failMsg errMsg tok : String) (sid eid : Nat)
    (net : FetchOutcome) (items : List Nat) :
    ((Sitemaps.deleteSitemap failMsg errMsg sid none true (some tok) net items).finalItems
        = items) ∧
    ((Emails.deleteEmail eid none true (some tok) net items).finalItems = items) ∧
    (net.isSuccess = true →
        (∃ m, (Sitemaps.deleteSitemap failMsg errMsg sid none true (some tok) net
            items).notifications = [⟨m, "success"⟩]) ∧
        (∃ m, (Emails.deleteEmail eid none true (some tok) net items).notifications =
            [⟨m, "success"⟩, ⟨"An error occurred. Please try again.", "error"⟩])) := by
  refine ⟨?_, ?_, ?_⟩
  · cases net with
    | exn => rfl
    | response r => by_cases hr : (r.ok && r.success) = true <;> simp [Sitemaps.deleteSitemap, hr]
  · cases net with
    | exn => rfl
    | response r => by_cases hr : (r.ok && r.success) = true <;> simp [Emails.deleteEmail, hr]
  · intro hsucc
    cases net with
    | exn => exact absurd hsucc (by simp [FetchOutcome.isSuccess])
    | response r =>
      have hr : (r.ok && r.success) = true := by
        simpa [FetchOutcome.isSuccess] using hsucc
      constructor
      · exact ⟨r.message.getD "", by simp [Sitemaps.deleteSitemap, hr]⟩
      · exact ⟨r.message.getD "", by simp [Emails.deleteEmail, hr]⟩

/-- Claim C8 witness. -/
theorem C8_witness :
    ((Sitemaps.deleteSitemap "f" "e" 1 none true (some "t")
        (.response ⟨true, true, some "ok", none⟩) [4, 5]).finalItems = [4, 5]) ∧
    (∃ m, (Emails.deleteEmail 2 none true (some "t")
        (.response ⟨true, true, some "ok", none⟩) [4, 5]).notifications =
      [⟨m, "success"⟩, ⟨"An error occurred. Please try again.", "error"⟩]) := by
  have h := C8_missing_item_no_crash "f" "e" "t" 1 2
    (.response ⟨true, true, some "ok", none⟩) [4, 5]
  exact ⟨h.1, (h.2.2 (by decide)).2⟩

/-- Claim C9: storage-access failures around the persisted
skip-onboarding flag are swallowed: a failing read behaves as "flag not
set" so `connect()` does not hide the onboarding; a failing write leaves
the storage as it was and the handler settles normally; on a working
storage the flag reads as set exactly when the value stored under the
fixed key `"skipOnboarding"` equals the string `"true"`, and a write
followed by a read observes the flag as set. -/
theorem C9_skip_onboarding_flag (entries : String → Option String) :
    Sitemaps.shouldSkipOnboarding .unavailable = false ∧
    Sitemaps.connectHidesOnboarding .unavailable = false ∧
    Sitemaps.setSkipOnboarding .unavailable = .unavailable ∧
    (Sitemaps.shouldSkipOnboarding (.store entries) =
        (entries "skipOnboarding" == some "true")) ∧
    Sitemaps.shouldSkipOnboarding (Sitemaps.setSkipOnboarding (.store entries)) = true := by
  refine ⟨rfl, rfl, rfl, rfl, ?_⟩
  simp [Sitemaps.setSkipOnboarding, Sitemaps.Storage.setItem,
    Sitemaps.shouldSkipOnboarding, Sitemaps.Storage.getItem]

/-- Claim C10: every network-issuing handler reads the anti-forgery token
by unconditionally dereferencing the first element named
`csrfmiddlewaretoken`; when no such element exists (`none`), the
dereference throws inside the handler's try block before the request is
built, so no network request is issued and the handler's generic error
notification is surfaced instead of an uncaught crash — for the bulk
update, add, toggle, email delete, and sitemap delete/archive
handlers. -/
theorem C10_missing_csrf_element (boxes : List Pages.PageCheckbox)
    (needsReview enabled : Bool) (net : FetchOutcome) (input : String)
    (eid sid : Nat) (lookup : Option Nat) (items : List Nat)
    (failMsg errMsg : String)
    (hsel : boxes.filter (·.checked) ≠ [])
    (hval : Emails.isValidEmail (Emails.jsTrim input) = true) :
    ((Pages.updatePages boxes needsReview none net).requests = [] ∧
      (Pages.updatePages boxes needsReview none net).notifications =
        [⟨"An error occurred while updating pages", "error"⟩]) ∧
    ((Emails.addEmail input none net).requests = [] ∧
      (Emails.addEmail input none net).notifications =
        [⟨"An error occurred. Please try again.", "error"⟩]) ∧
    ((Emails.toggleEmail enabled none net).requests = [] ∧
      (Emails.toggleEmail enabled none net).notifications =
        [⟨"An error occurred. Please try again.", "error"⟩]) ∧
    ((Emails.deleteEmail eid lookup true none net items).requests = [] ∧
      (Emails.deleteEmail eid lookup true none net items).notifications =
        [⟨"An error occurred. Please try again.", "error"⟩]) ∧
    ((Sitemaps.deleteSitemap failMsg errMsg sid lookup true none net items).requests = [] ∧
      (Sitemaps.deleteSitemap failMsg errMsg sid lookup true none net items).notifications =
        [⟨errMsg, "error"⟩]) := by
  refine ⟨?_, ?_, ⟨rfl, rfl⟩, ⟨rfl, rfl⟩, ⟨rfl, rfl⟩⟩
  · have hlen : ¬ ((boxes.filter (·.checked)).map (·.pageId)).length = 0 := by
      simpa [List.length_eq_zero] using hsel
    unfold Pages.updatePages
    rw [if_neg hlen]
    exact ⟨rfl, rfl⟩
  · have hne : Emails.jsTrim input ≠ "" := by
      intro he
      rw [he, isValidEmail_empty] at hval
      exact Bool.false_ne_true hval
    have hcond : ¬ ((!Emails.isValidEmail (Emails.jsTrim input)) = true) := by
      simp [hval]
    unfold Emails.addEmail
    rw [if_neg hne, if_neg hcond]
    exact ⟨rfl, rfl⟩

/-- Claim C10 witness. -/
theorem C10_witness :
    ((Pages.updatePages [⟨true, 3⟩] true none .exn).requests = [] ∧
      (Pages.updatePages [⟨true, 3⟩] true none .exn).notifications =
        [⟨"An error occurred while updating pages", "error"⟩]) ∧
    ((Emails.addEmail "user@example.com" none .exn).requests = [] ∧
      (Emails.addEmail "user@example.com" none .exn).notifications =
        [⟨"An error occurred. Please try again.", "error"⟩]) :=
  have h := C10_missing_csrf_element [⟨true, 3⟩] true true .exn "user@example.com"
    2 1 none [] "f" "e" (by decide) (by decide)
  ⟨h.1, h.2.1⟩

/-- Claim C1 witness. -/
theorem C1_witness :
    ((Pages.toggleCheckbox ⟨[true, false], true, false, false, true, false⟩).selectAllChecked
        = true ↔ ∀ b ∈ [true, false], b = true) ∧
    ((Pages.toggleCheckbox ⟨[true, false], true, false, false, true, false⟩).selectAllIndeterminate
        = true ↔ ((∃ b ∈ [true, false], b = true) ∧ ¬ (∀ b ∈ [true, false], b = true))) ∧
    ((Pages.toggleCheckbox ⟨[true, false], true, false, false, true, false⟩).bulkActionsHidden
        = false ↔ ∃ b ∈ [true, false], b = true) ∧
    ((Pages.toggleSelectAll true ⟨[true, false], true, false, false, true, false⟩).bulkActionsHidden
        = false ↔ (true = true ∧ ([true, false] : List Bool) ≠ [])) :=
  C1_aggregate_ui_state ⟨[true, false], true, false, false, true, false⟩ true rfl rfl
